import Mathlib

/-!
Shallow embedding of the client-side authentication UI:
`src/components/Login.tsx` (the Auth Form component) and
`src/unnamed/part_000` (the `DashboardPage` Session Guard component).

Each React event handler is embedded as a function from the component
state (and the outcome of the awaited provider call) to the list of
atomic steps the handler performs, in source order: `setX(...)` state
updates, provider SDK calls, the fixed `setTimeout` delay, and router
navigations.  Folding the state-update steps over a state yields the
handler's final component state.  Provider calls are modelled by an
explicit outcome (`success`, or `failure` carrying the thrown JS value),
mirroring the `try`/`catch`/`finally` structure of the handlers.
-/

/-- The set matched by the JavaScript regex class `\s` (ECMAScript
WhiteSpace and LineTerminator code points). -/
def isJsWhitespace (c : Char) : Bool :=
  c = '\t' || c = '\n' || c = '\x0B' || c = '\x0C' || c = '\r' || c = ' ' ||
  c = '\u00A0' || c = '\u1680' || ('\u2000' ≤ c && c ≤ '\u200A') ||
  c = '\u2028' || c = '\u2029' || c = '\u202F' || c = '\u205F' ||
  c = '\u3000' || c = '\uFEFF'

/-- A character matched by the regex class `[^\s@]` from the email regex
in `validateForm`. -/
def isAtomChar (c : Char) : Bool :=
  !(isJsWhitespace c) && c != '@'

/-- Helper for the email matcher: the list contains a `'.'` that is
followed by at least one further character. -/
def dotWithSuffix : List Char → Bool
  | [] => false
  | [_] => false
  | a :: b :: w => a == '.' || dotWithSuffix (b :: w)

/-- `/^[^\s@]+@[^\s@]+\.[^\s@]+$/.test s` from `validateForm` in
`Login.tsx`.  Since `[^\s@]` excludes `'@'`, a full match forces the
split at the unique `'@'`; the part before it must be a nonempty run of
`[^\s@]` characters, and the part after it must be a nonempty run of
`[^\s@]` characters containing a `'.'` with at least one character on
each side (`'.'` itself lies in `[^\s@]`, so the dot chosen by the regex
may be any such occurrence). -/
def emailRegexTest (s : String) : Bool :=
  let cs := s.toList
  let beforeAt := cs.takeWhile (fun c => c != '@')
  match cs.drop beforeAt.length with
  | '@' :: afterAt =>
      !beforeAt.isEmpty && beforeAt.all isAtomChar && afterAt.all isAtomChar &&
      (match afterAt with
       | [] => false
       | _ :: t => dotWithSuffix t)
  | _ => false

/-- `interface LoginFormData` from `Login.tsx`. -/
structure LoginFormData where
  email : String
  password : String
deriving DecidableEq

/-- `Partial<LoginFormData>`: the per-field validation error mapping held
in the `errors` state.  `none` models an absent (or `undefined`) key. -/
structure ValidationErrors where
  email : Option String
  password : Option String
deriving DecidableEq

/-- The two form fields, i.e. the possible `name` attributes of the
inputs wired to `handleChange`. -/
inductive FormField where
  | email
  | password
deriving DecidableEq

/-- `authMode` state: `'signIn' | 'signUp'`. -/
inductive AuthMode where
  | signIn
  | signUp
deriving DecidableEq

/-- The component state of `Login` (one field per `useState` hook, in
source order, with the hook's initial value recorded in
`loginComponentInitialState`). -/
structure LoginState where
  formData : LoginFormData
  errors : ValidationErrors
  isLoading : Bool
  isGoogleLoading : Bool
  isRedirecting : Bool
  successMessage : String
  authError : String
  authMode : AuthMode
deriving DecidableEq

/-- The initial values passed to the `useState` hooks of `Login`. -/
def loginComponentInitialState : LoginState :=
  { formData := { email := "", password := "" }
    errors := { email := none, password := none }
    isLoading := false
    isGoogleLoading := false
    isRedirecting := false
    successMessage := ""
    authError := ""
    authMode := .signIn }

/-- The `newErrors` object built by `validateForm` in `Login.tsx`:
email is required, else checked against the format regex; password is
required, else checked for length `< 6` (string length in characters). -/
def validateFormErrors (fd : LoginFormData) : ValidationErrors :=
  { email :=
      if fd.email = "" then some "Email is required"
      else if emailRegexTest fd.email = false then some "Please enter a valid email"
      else none
    password :=
      if fd.password = "" then some "Password is required"
      else if fd.password.length < 6 then some "Password must be at least 6 characters"
      else none }

/-- The boolean returned by `validateForm`:
`Object.keys(newErrors).length === 0`, i.e. no field error was set. -/
def validateFormOk (fd : LoginFormData) : Bool :=
  (validateFormErrors fd).email.isNone && (validateFormErrors fd).password.isNone

/-- JavaScript truthiness of an optional error-message string:
`undefined` and `''` are falsy, any other string is truthy.  This is the
test used by `if (errors[name])` in `handleChange` and by the
conditional rendering of the error paragraphs. -/
def jsTruthy : Option String → Bool
  | some m => m != ""
  | none => false

/-- `{...prev, [name]: value}` in `handleChange`. -/
def LoginFormData.setField (fd : LoginFormData) : FormField → String → LoginFormData
  | .email, v => { fd with email := v }
  | .password, v => { fd with password := v }

/-- Lookup `errors[name]`. -/
def ValidationErrors.getField (e : ValidationErrors) : FormField → Option String
  | .email => e.email
  | .password => e.password

/-- `{...prev, [name]: undefined}` in `handleChange`: the named field's
error entry becomes `undefined`. -/
def ValidationErrors.clearField (e : ValidationErrors) : FormField → ValidationErrors
  | .email => { e with email := none }
  | .password => { e with password := none }

/-- `handleChange` in `Login.tsx`: write the edited value into
`formData`, and if the edited field currently has a (truthy) error
entry, clear that entry. -/
def handleChange (st : LoginState) (f : FormField) (v : String) : LoginState :=
  let st1 := { st with formData := st.formData.setField f v }
  if jsTruthy (st.errors.getField f) then
    { st1 with errors := st1.errors.clearField f }
  else
    st1

/-- The thrown JavaScript value observed by a `catch (error)` clause:
either an `Error` instance carrying its `message`, or any other value. -/
inductive ThrownValue where
  | jsError (message : String)
  | nonError
deriving DecidableEq

/-- The outcome of an awaited provider SDK call: the promise resolves,
or it rejects with a thrown value. -/
inductive ProviderOutcome where
  | success
  | failure (thrown : ThrownValue)
deriving DecidableEq

/-- `error instanceof Error ? error.message : fallback`, the message
computation in the `catch` blocks of both `Login` handlers. -/
def thrownMessage (t : ThrownValue) (fallback : String) : String :=
  match t with
  | .jsError m => m
  | .nonError => fallback

/-- One atomic step performed by a `Login` handler: a `setX` state
update, a provider SDK call, the fixed `setTimeout` delay, or a router
navigation. -/
inductive LoginStep where
  | setFormDataTo (fd : LoginFormData)
  | setErrorsTo (e : ValidationErrors)
  | setIsLoading (b : Bool)
  | setIsGoogleLoading (b : Bool)
  | setIsRedirecting (b : Bool)
  | setSuccessMessage (s : String)
  | setAuthError (s : String)
  | callSignInWithEmailAndPassword (email password : String)
  | callCreateUserWithEmailAndPassword (email password : String)
  | callSignInWithPopup
  | delay (ms : Nat)
  | routerPush (path : String)
deriving DecidableEq

/-- Effect of a `LoginStep` on the component state (non-state steps
leave it unchanged). -/
def applyLoginStep (st : LoginState) : LoginStep → LoginState
  | .setFormDataTo fd => { st with formData := fd }
  | .setErrorsTo e => { st with errors := e }
  | .setIsLoading b => { st with isLoading := b }
  | .setIsGoogleLoading b => { st with isGoogleLoading := b }
  | .setIsRedirecting b => { st with isRedirecting := b }
  | .setSuccessMessage s => { st with successMessage := s }
  | .setAuthError s => { st with authError := s }
  | .callSignInWithEmailAndPassword _ _ => st
  | .callCreateUserWithEmailAndPassword _ _ => st
  | .callSignInWithPopup => st
  | .delay _ => st
  | .routerPush _ => st

/-- Fold a list of steps over a component state. -/
def runLoginSteps (st : LoginState) (steps : List LoginStep) : LoginState :=
  steps.foldl applyLoginStep st

/-- The step sequence of `handleSubmit` in `Login.tsx`, given the
outcome of the provider call it awaits.  In source order: clear the
transient messages and the redirect flag; run `validateForm` (which
stores `newErrors`) and return early when it fails; otherwise raise the
loading flag, call the provider operation selected by `authMode`, and on
success set the success message, reset the form, raise the redirect
flag, wait 1000 ms and push `/dashboard`, while on rejection set the
auth error from the thrown value; the `finally` clause lowers the
loading flag. -/
def handleSubmitSteps (st : LoginState) (outcome : ProviderOutcome) : List LoginStep :=
  let pre : List LoginStep :=
    [.setSuccessMessage "", .setAuthError "", .setIsRedirecting false,
     .setErrorsTo (validateFormErrors st.formData)]
  if validateFormOk st.formData = false then
    pre
  else
    let providerCall : LoginStep :=
      match st.authMode with
      | .signUp => .callCreateUserWithEmailAndPassword st.formData.email st.formData.password
      | .signIn => .callSignInWithEmailAndPassword st.formData.email st.formData.password
    let afterCall : List LoginStep :=
      match outcome with
      | .success =>
          let msg := match st.authMode with
            | .signUp => "Account created!"
            | .signIn => "Login successful!"
          [.setSuccessMessage msg,
           .setFormDataTo { email := "", password := "" },
           .setIsRedirecting true, .delay 1000, .routerPush "/dashboard"]
      | .failure t =>
          [.setAuthError (thrownMessage t "Login failed. Please try again.")]
    pre ++ [.setIsLoading true, providerCall] ++ afterCall ++ [.setIsLoading false]

/-- Final component state after `handleSubmit`. -/
def handleSubmitFinal (st : LoginState) (outcome : ProviderOutcome) : LoginState :=
  runLoginSteps st (handleSubmitSteps st outcome)

/-- The step sequence of `handleGoogleSignIn` in `Login.tsx`: clear the
transient messages and redirect flag, raise the Google loading flag,
call `signInWithPopup`, and on success set the success message, raise
the redirect flag, wait 1000 ms and push `/dashboard`, while on
rejection set the auth error from the thrown value; the `finally` clause
lowers the Google loading flag. -/
def handleGoogleSignInSteps (outcome : ProviderOutcome) : List LoginStep :=
  [.setSuccessMessage "", .setAuthError "", .setIsRedirecting false,
   .setIsGoogleLoading true, .callSignInWithPopup] ++
  (match outcome with
   | .success =>
       [.setSuccessMessage "Login successful!",
        .setIsRedirecting true, .delay 1000, .routerPush "/dashboard"]
   | .failure t =>
       [.setAuthError (thrownMessage t "Google login failed. Please try again.")]) ++
  [.setIsGoogleLoading false]

/-- Final component state after `handleGoogleSignIn`. -/
def handleGoogleSignInFinal (st : LoginState) (outcome : ProviderOutcome) : LoginState :=
  runLoginSteps st (handleGoogleSignInSteps outcome)

/-- `disabled={isLoading || isGoogleLoading}` on the submit button
(`data-testid="submit-button"`). -/
def submitButtonDisabled (st : LoginState) : Bool :=
  st.isLoading || st.isGoogleLoading

/-- `disabled={isLoading || isGoogleLoading}` on the Google sign-in
button (`data-testid="google-signin-button"`). -/
def googleButtonDisabled (st : LoginState) : Bool :=
  st.isLoading || st.isGoogleLoading

/-- A step that invokes a provider auth operation (email/password
sign-in, sign-up, or the federated popup). -/
def LoginStep.isProviderCall : LoginStep → Bool
  | .callSignInWithEmailAndPassword _ _ => true
  | .callCreateUserWithEmailAndPassword _ _ => true
  | .callSignInWithPopup => true
  | _ => false

/-- A step that navigates with `router.push`. -/
def LoginStep.isRouterPush : LoginStep → Bool
  | .routerPush _ => true
  | _ => false

/-- A step that writes the `isLoading` flag. -/
def LoginStep.writesLoadingFlag : LoginStep → Bool
  | .setIsLoading _ => true
  | _ => false

/-- A step that writes the `isGoogleLoading` flag. -/
def LoginStep.writesGoogleLoadingFlag : LoginStep → Bool
  | .setIsGoogleLoading _ => true
  | _ => false

/-- The component state of `DashboardPage` (`src/unnamed/part_000`), one
field per `useState` hook. -/
structure DashboardState where
  isSigningOut : Bool
  signOutMessage : String
deriving DecidableEq

/-- The initial values passed to the `useState` hooks of
`DashboardPage`. -/
def dashboardComponentInitialState : DashboardState :=
  { isSigningOut := false, signOutMessage := "" }

/-- A router navigation command (`router.replace` / `router.push`). -/
inductive NavCommand where
  | replace (path : String)
  | push (path : String)
deriving DecidableEq

/-- The `onAuthStateChanged` subscription callback installed by the
`useEffect` of `DashboardPage`: given whether the delivered event
carries an authenticated user (`user` is modelled by its presence) and
the current `isSigningOut` flag, it issues `router.replace('/login')`
exactly when no user is present and no sign-out is in progress. -/
def dashboardAuthCallback (user : Option String) (isSigningOut : Bool) : Option NavCommand :=
  if user.isNone && !isSigningOut then some (.replace "/login") else none

/-- One atomic step performed by `handleSignOut` in `DashboardPage`. -/
inductive DashStep where
  | setIsSigningOut (b : Bool)
  | setSignOutMessage (s : String)
  | callSignOut
  | delay (ms : Nat)
  | routerReplace (path : String)
deriving DecidableEq

/-- Effect of a `DashStep` on the `DashboardPage` component state. -/
def applyDashStep (st : DashboardState) : DashStep → DashboardState
  | .setIsSigningOut b => { st with isSigningOut := b }
  | .setSignOutMessage s => { st with signOutMessage := s }
  | .callSignOut => st
  | .delay _ => st
  | .routerReplace _ => st

/-- Fold a list of dashboard steps over a component state. -/
def runDashSteps (st : DashboardState) (steps : List DashStep) : DashboardState :=
  steps.foldl applyDashStep st

/-- The step sequence of `handleSignOut` in `DashboardPage`, given the
outcome of the awaited `signOut(auth)` call: raise the signing-out flag
and set the success message, call provider sign-out, and on success wait
1000 ms then `router.replace('/login')`, while on rejection (the `catch`
clause ignores the thrown value) lower the flag and set the retry
message. -/
def handleSignOutSteps (outcome : ProviderOutcome) : List DashStep :=
  [.setIsSigningOut true, .setSignOutMessage "Signed out successfully!", .callSignOut] ++
  match outcome with
  | .success => [.delay 1000, .routerReplace "/login"]
  | .failure _ => [.setIsSigningOut false,
                   .setSignOutMessage "Sign out failed. Please try again."]

/-- Final component state after `handleSignOut`. -/
def handleSignOutFinal (st : DashboardState) (outcome : ProviderOutcome) : DashboardState :=
  runDashSteps st (handleSignOutSteps outcome)

/-- A dashboard step that navigates with `router.replace`. -/
def DashStep.isRouterReplace : DashStep → Bool
  | .routerReplace _ => true
  | _ => false

/-- A `Login` state whose form fields are filled with a valid email and
password (used to exercise the valid-submission paths). -/
def validFilledLoginState : LoginState :=
  { loginComponentInitialState with
    formData := { email := "user@example.com", password := "password123" } }

/-- A `Login` state in which both fields carry a validation error (as
left by submitting the empty form). -/
def erroredLoginState : LoginState :=
  { loginComponentInitialState with
    errors := { email := some "Email is required", password := some "Password is required" } }

/-- A `Login` state in which only the email/password path's loading flag
is raised. -/
def blockedGoogleTriggerState : LoginState :=
  { loginComponentInitialState with isLoading := true }

/-- Declarative reading of the email regex
`^[^\s@]+@[^\s@]+\.[^\s@]+$`: the character list of `s` decomposes as
a nonempty `[^\s@]` run, `'@'`, a nonempty `[^\s@]` run, `'.'`, and a
nonempty `[^\s@]` run.  `emailRegexTest_iff_matches` below proves the
executable matcher equivalent to this reading. -/
def emailRegexMatches (s : String) : Prop :=
  ∃ x y z : List Char,
    s.toList = x ++ '@' :: (y ++ '.' :: z) ∧
    x ≠ [] ∧ y ≠ [] ∧ z ≠ [] ∧
    x.all isAtomChar = true ∧ y.all isAtomChar = true ∧ z.all isAtomChar = true

theorem takeWhile_of_all_append {x r : List Char} (hx : x.all (fun c => c != '@') = true) :
    (x ++ '@' :: r).takeWhile (fun c => c != '@') = x := by
  induction x with
  | nil => simp [List.takeWhile]
  | cons a t ih =>
      simp only [List.all_cons, Bool.and_eq_true] at hx
      simp [List.takeWhile, hx.1, ih hx.2]

theorem dotWithSuffix_append (u : List Char) (c : Char) (w : List Char) :
    dotWithSuffix (u ++ '.' :: c :: w) = true := by
  induction u with
  | nil => simp [dotWithSuffix]
  | cons a u ih =>
      cases u with
      | nil => simp [dotWithSuffix]
      | cons b w' => simp [dotWithSuffix] at ih ⊢; exact Or.inr ih

theorem exists_of_dotWithSuffix :
    ∀ t : List Char, dotWithSuffix t = true → ∃ u c w, t = u ++ '.' :: c :: w := by
  intro t
  induction t with
  | nil => intro h; simp [dotWithSuffix] at h
  | cons a t ih =>
      cases t with
      | nil => intro h; simp [dotWithSuffix] at h
      | cons b w =>
          intro h
          simp only [dotWithSuffix, Bool.or_eq_true, beq_iff_eq] at h
          rcases h with h | h
          · exact ⟨[], b, w, by simp [h]⟩
          · obtain ⟨u, c, w', hw⟩ := ih h
            exact ⟨a :: u, c, w', by simp [hw]⟩

theorem emailRegexTest_iff_matches (s : String) :
    emailRegexTest s = true ↔ emailRegexMatches s := by
  constructor
  · intro h
    simp only [emailRegexTest] at h
    split at h
    case h_2 => exact absurd h (by simp)
    case h_1 afterAt heq =>
      set xs := s.toList.takeWhile (fun c => c != '@') with hxs
      obtain ⟨rest, hrest⟩ := List.takeWhile_prefix (l := s.toList) (p := fun c => c != '@')
      rw [← hxs] at hrest
      have hdrop := List.drop_left xs rest
      rw [hrest] at hdrop
      have hra : rest = '@' :: afterAt := hdrop.symm.trans heq
      rw [hra] at hrest
      have hsplit : s.toList = xs ++ '@' :: afterAt := hrest.symm
      cases afterAt with
      | nil => simp at h
      | cons b t =>
        simp only [Bool.and_eq_true] at h
        obtain ⟨⟨⟨hne, hball⟩, hcall⟩, hdot⟩ := h
        obtain ⟨u, c, w, hw⟩ := exists_of_dotWithSuffix t hdot
        rw [hw] at hsplit
        refine ⟨xs, b :: u, c :: w, ?_, ?_, ?_, ?_, hball, ?_, ?_⟩
        · rw [hsplit]; simp
        · intro hnil; rw [hnil] at hne; simp at hne
        · exact List.cons_ne_nil _ _
        · exact List.cons_ne_nil _ _
        · rw [hw] at hcall
          simp only [List.all_cons, List.all_append, Bool.and_eq_true] at hcall ⊢
          exact ⟨hcall.1, hcall.2.1⟩
        · rw [hw] at hcall
          simp only [List.all_cons, List.all_append, Bool.and_eq_true] at hcall ⊢
          exact ⟨hcall.2.2.2.1, hcall.2.2.2.2⟩
  · rintro ⟨x, y, z, hs, hx, hy, hz, hax, hay, haz⟩
    have hxat : x.all (fun c => c != '@') = true := by
      rw [List.all_eq_true] at hax ⊢
      intro c hc
      have hc2 := hax c hc
      simp only [isAtomChar, Bool.and_eq_true] at hc2
      exact hc2.2
    simp only [emailRegexTest]
    rw [hs, takeWhile_of_all_append hxat, List.drop_left]
    cases x with
    | nil => exact absurd rfl hx
    | cons a x' =>
      cases y with
      | nil => exact absurd rfl hy
      | cons b y' =>
        cases z with
        | nil => exact absurd rfl hz
        | cons c z' =>
          simp only [List.cons_append, List.all_cons, List.all_append, Bool.and_eq_true] at hax hay haz ⊢
          refine ⟨⟨⟨?_, ?_⟩, ?_⟩, ?_⟩
          · simp
          · exact ⟨hax.1, hax.2⟩
          · exact ⟨hay.1, hay.2, by decide, haz.1, haz.2⟩
          · exact dotWithSuffix_append y' c z'

/-- Ordering property of a handler's step list: some nonempty success
message and the redirect flag are both set before the fixed delay, and
the navigation to `/dashboard` comes after the delay. -/
def redirectOrdering (steps : List LoginStep) : Prop :=
  ∃ i k j l : Nat, i < j ∧ k < j ∧ j < l ∧
    (∃ m, steps.get? i = some (.setSuccessMessage m) ∧ m ≠ "") ∧
    steps.get? k = some (.setIsRedirecting true) ∧
    steps.get? j = some (.delay 1000) ∧
    steps.get? l = some (.routerPush "/dashboard")

/-- C1: whenever validation fails (a field is empty or fails its
check), `handleSubmit` performs no provider call, and it leaves the
per-field error messages computed by `validateForm` in the `errors`
state; in particular the empty form yields both required-field
errors. -/
theorem c1_invalid_submit_skips_provider (st : LoginState) (outcome : ProviderOutcome)
    (h : validateFormOk st.formData = false) :
    ((handleSubmitSteps st outcome).all fun s => !s.isProviderCall) = true ∧
    (handleSubmitFinal st outcome).errors = validateFormErrors st.formData ∧
    validateFormErrors { email := "", password := "" } =
      { email := some "Email is required", password := some "Password is required" } := by
  refine ⟨?_, ?_, by decide⟩ <;>
    simp [handleSubmitSteps, handleSubmitFinal, runLoginSteps, h, applyLoginStep,
      LoginStep.isProviderCall]

theorem c1_invalid_submit_skips_provider_witness :
    validateFormOk loginComponentInitialState.formData = false ∧
    (((handleSubmitSteps loginComponentInitialState .success).all
        fun s => !s.isProviderCall) = true ∧
     (handleSubmitFinal loginComponentInitialState .success).errors =
       validateFormErrors loginComponentInitialState.formData ∧
     validateFormErrors { email := "", password := "" } =
       { email := some "Email is required", password := some "Password is required" }) :=
  ⟨by decide, c1_invalid_submit_skips_provider loginComponentInitialState .success (by decide)⟩

/-- C7: for a non-empty email, `validateForm` stores the email-format
error exactly when the format regex rejects the email; for an empty
email it stores the required-field error (the format check is not
reached). -/
theorem c7_email_format_error_iff_regex_fails (e p : String) (h : e ≠ "") :
    ((validateFormErrors { email := e, password := p }).email =
        some "Please enter a valid email" ↔ emailRegexTest e = false) ∧
    (validateFormErrors { email := "", password := p }).email = some "Email is required" := by
  refine ⟨?_, by simp [validateFormErrors]⟩
  cases hr : emailRegexTest e <;> simp [validateFormErrors, h, hr]

theorem c7_email_format_error_iff_regex_fails_witness :
    ("bad" : String) ≠ "" ∧
    (((validateFormErrors { email := "bad", password := "" }).email =
        some "Please enter a valid email") ↔ emailRegexTest "bad" = false) ∧
    (validateFormErrors { email := "", password := "" }).email = some "Email is required" :=
  ⟨by decide, c7_email_format_error_iff_regex_fails "bad" "" (by decide)⟩

/-- C8: `handleChange` on a field whose error entry is currently truthy
clears exactly that entry, leaving the other field's entry unchanged;
on a field with no current error it leaves the whole error mapping
unchanged. -/
theorem c8_edit_clears_only_edited_field_error (st : LoginState) (f : FormField) (v : String) :
    (jsTruthy (st.errors.getField f) = true →
       (handleChange st f v).errors.getField f = none ∧
       ∀ g : FormField, g ≠ f →
         (handleChange st f v).errors.getField g = st.errors.getField g) ∧
    (jsTruthy (st.errors.getField f) = false →
       (handleChange st f v).errors = st.errors) := by
  constructor
  · intro h
    refine ⟨?_, ?_⟩
    · cases f <;>
        simp_all [handleChange, ValidationErrors.clearField, ValidationErrors.getField]
    · intro g hg
      cases f <;> cases g <;>
        simp_all [handleChange, ValidationErrors.clearField, ValidationErrors.getField]
  · intro h
    simp [handleChange, h]

theorem c8_edit_clears_only_edited_field_error_witness :
    (handleChange erroredLoginState .email "a").errors.getField .email = none ∧
    (handleChange erroredLoginState .email "a").errors.getField .password =
      erroredLoginState.errors.getField .password :=
  ⟨((c8_edit_clears_only_edited_field_error erroredLoginState .email "a").1 (by decide)).1,
   ((c8_edit_clears_only_edited_field_error erroredLoginState .email "a").1 (by decide)).2
     .password (by decide)⟩

/-- C4: the `DashboardPage` auth-state subscription callback issues
`router.replace('/login')` when the delivered event carries no user and
no sign-out is in progress, and issues no navigation when a user is
present or a sign-out is in progress. -/
theorem c4_guard_redirects_iff_no_user_not_signing_out (user : Option String) (b : Bool) :
    (user = none → b = false → dashboardAuthCallback user b = some (.replace "/login")) ∧
    (user.isSome = true ∨ b = true → dashboardAuthCallback user b = none) := by
  cases user <;> cases b <;> simp [dashboardAuthCallback]

theorem c4_guard_redirects_iff_no_user_not_signing_out_witness :
    dashboardAuthCallback none false = some (.replace "/login") :=
  (c4_guard_redirects_iff_no_user_not_signing_out none false).1 rfl rfl

/-- C6: when the provider's sign-out rejects, `handleSignOut` resets the
signing-out flag, sets the retry message, and performs no
`router.replace` navigation. -/
theorem c6_signout_failure_stays_with_retry_message (st : DashboardState) (t : ThrownValue) :
    (handleSignOutFinal st (.failure t)).isSigningOut = false ∧
    (handleSignOutFinal st (.failure t)).signOutMessage =
      "Sign out failed. Please try again." ∧
    ((handleSignOutSteps (.failure t)).all fun s => !s.isRouterReplace) = true :=
  ⟨rfl, rfl, rfl⟩

/-- C10: `handleSignOut` raises the signing-out flag and sets the
message `Signed out successfully!` strictly before the provider
sign-out call, in every execution; in particular the state holding
while the sign-out call is awaited (after the first three steps) shows
that message and the raised flag. -/
theorem c10_signout_message_precedes_provider_call
    (st : DashboardState) (outcome : ProviderOutcome) :
    (∃ i j k : Nat, i < k ∧ j < k ∧
      (handleSignOutSteps outcome).get? i = some (.setIsSigningOut true) ∧
      (handleSignOutSteps outcome).get? j =
        some (.setSignOutMessage "Signed out successfully!") ∧
      (handleSignOutSteps outcome).get? k = some .callSignOut) ∧
    (runDashSteps st ((handleSignOutSteps outcome).take 3)).signOutMessage =
      "Signed out successfully!" ∧
    (runDashSteps st ((handleSignOutSteps outcome).take 3)).isSigningOut = true := by
  refine ⟨⟨0, 1, 2, by norm_num, by norm_num, ?_, ?_, ?_⟩, ?_, ?_⟩ <;>
    cases outcome <;> rfl

/-- C2: on a valid submission whose provider call succeeds,
`handleSubmit` resets the form to empty fields, and its step sequence
sets a nonempty success message and raises the redirect flag before the
fixed 1000 ms delay, with the `/dashboard` navigation after the
delay. -/
theorem c2_successful_submit_clears_form_then_navigates (st : LoginState)
    (h : validateFormOk st.formData = true) :
    (handleSubmitFinal st .success).formData = { email := "", password := "" } ∧
    (handleSubmitFinal st .success).isRedirecting = true ∧
    redirectOrdering (handleSubmitSteps st .success) := by
  cases hm : st.authMode
  case signIn =>
    have hsteps : handleSubmitSteps st .success =
        [.setSuccessMessage "", .setAuthError "", .setIsRedirecting false,
         .setErrorsTo (validateFormErrors st.formData), .setIsLoading true,
         .callSignInWithEmailAndPassword st.formData.email st.formData.password,
         .setSuccessMessage "Login successful!",
         .setFormDataTo { email := "", password := "" },
         .setIsRedirecting true, .delay 1000, .routerPush "/dashboard",
         .setIsLoading false] := by
      simp [handleSubmitSteps, h, hm]
    refine ⟨?_, ?_, 6, 8, 9, 10, by norm_num, by norm_num, by norm_num,
      ⟨"Login successful!", by rw [hsteps]; rfl, by decide⟩,
      by rw [hsteps]; rfl, by rw [hsteps]; rfl, by rw [hsteps]; rfl⟩ <;>
      simp [handleSubmitFinal, hsteps, runLoginSteps, applyLoginStep]
  case signUp =>
    have hsteps : handleSubmitSteps st .success =
        [.setSuccessMessage "", .setAuthError "", .setIsRedirecting false,
         .setErrorsTo (validateFormErrors st.formData), .setIsLoading true,
         .callCreateUserWithEmailAndPassword st.formData.email st.formData.password,
         .setSuccessMessage "Account created!",
         .setFormDataTo { email := "", password := "" },
         .setIsRedirecting true, .delay 1000, .routerPush "/dashboard",
         .setIsLoading false] := by
      simp [handleSubmitSteps, h, hm]
    refine ⟨?_, ?_, 6, 8, 9, 10, by norm_num, by norm_num, by norm_num,
      ⟨"Account created!", by rw [hsteps]; rfl, by decide⟩,
      by rw [hsteps]; rfl, by rw [hsteps]; rfl, by rw [hsteps]; rfl⟩ <;>
      simp [handleSubmitFinal, hsteps, runLoginSteps, applyLoginStep]

theorem c2_successful_submit_clears_form_then_navigates_witness :
    validateFormOk validFilledLoginState.formData = true ∧
    ((handleSubmitFinal validFilledLoginState .success).formData =
       { email := "", password := "" } ∧
     (handleSubmitFinal validFilledLoginState .success).isRedirecting = true ∧
     redirectOrdering (handleSubmitSteps validFilledLoginState .success)) :=
  ⟨by decide, c2_successful_submit_clears_form_then_navigates validFilledLoginState (by decide)⟩

/-- C9: on a valid submission whose provider call rejects,
`handleSubmit` leaves the form fields unchanged (no reset) and performs
no `router.push` navigation. -/
theorem c9_failed_submit_preserves_form_no_navigation (st : LoginState) (t : ThrownValue)
    (h : validateFormOk st.formData = true) :
    (handleSubmitFinal st (.failure t)).formData = st.formData ∧
    ((handleSubmitSteps st (.failure t)).all fun s => !s.isRouterPush) = true := by
  cases hm : st.authMode <;>
    constructor <;>
      simp [handleSubmitFinal, handleSubmitSteps, runLoginSteps, h, hm, applyLoginStep,
        LoginStep.isRouterPush]

theorem c9_failed_submit_preserves_form_no_navigation_witness :
    validateFormOk validFilledLoginState.formData = true ∧
    ((handleSubmitFinal validFilledLoginState (.failure (.jsError "boom"))).formData =
       validFilledLoginState.formData ∧
     ((handleSubmitSteps validFilledLoginState (.failure (.jsError "boom"))).all
        fun s => !s.isRouterPush) = true) :=
  ⟨by decide,
   c9_failed_submit_preserves_form_no_navigation validFilledLoginState (.jsError "boom")
     (by decide)⟩

/-- C5: when the awaited provider call rejects, the `catch` clause of
`handleSubmit` (on any execution that reaches the provider call, i.e. a
valid submission) and of `handleGoogleSignIn` (on every execution, in
any form state — the Google path does not validate the form) sets the
auth-error state to the thrown `Error`'s message, or to the handler's
fixed fallback text when the thrown value is not an `Error`; the
handlers are total functions of the outcome, so no exception escapes
them. -/
theorem c5_provider_failure_caught_as_auth_error (st : LoginState) (t : ThrownValue) :
    (validateFormOk st.formData = true →
       (handleSubmitFinal st (.failure t)).authError =
         thrownMessage t "Login failed. Please try again.") ∧
    (handleGoogleSignInFinal st (.failure t)).authError =
      thrownMessage t "Google login failed. Please try again." := by
  constructor
  · intro h
    cases hm : st.authMode <;>
      simp [handleSubmitFinal, handleSubmitSteps, runLoginSteps, h, hm, applyLoginStep]
  · simp [handleGoogleSignInFinal, handleGoogleSignInSteps, runLoginSteps, applyLoginStep]

theorem c5_provider_failure_caught_as_auth_error_witness :
    (handleSubmitFinal validFilledLoginState (.failure .nonError)).authError =
      thrownMessage .nonError "Login failed. Please try again." ∧
    (handleGoogleSignInFinal loginComponentInitialState (.failure .nonError)).authError =
      thrownMessage .nonError "Google login failed. Please try again." :=
  ⟨(c5_provider_failure_caught_as_auth_error validFilledLoginState .nonError).1 (by decide),
   (c5_provider_failure_caught_as_auth_error loginComponentInitialState .nonError).2⟩

/-- C3 counterexample: in a state where only the email/password path's
loading flag is raised, the Google sign-in trigger is nevertheless
disabled — both buttons carry `disabled={isLoading || isGoogleLoading}`,
so one path's loading flag does block the other path's trigger,
contrary to the claim. -/
theorem c3_counterexample_google_trigger_blocked :
    blockedGoogleTriggerState.isLoading = true ∧
    blockedGoogleTriggerState.isGoogleLoading = false ∧
    googleButtonDisabled blockedGoogleTriggerState = true ∧
    submitButtonDisabled { loginComponentInitialState with isGoogleLoading := true } = true := by
  decide

/-- C3 (amended): the two sign-in paths use independent loading flags —
`handleSubmit` never writes `isGoogleLoading` and `handleGoogleSignIn`
never writes `isLoading` — but their triggers are not independent: each
of the two buttons is disabled exactly when either loading flag is
raised, so while one path is loading the other cannot be started. -/
theorem c3_amended_independent_flags_mutually_disabled_triggers
    (st : LoginState) (outcome : ProviderOutcome) :
    ((handleSubmitSteps st outcome).all fun s => !s.writesGoogleLoadingFlag) = true ∧
    ((handleGoogleSignInSteps outcome).all fun s => !s.writesLoadingFlag) = true ∧
    submitButtonDisabled st = (st.isLoading || st.isGoogleLoading) ∧
    googleButtonDisabled st = (st.isLoading || st.isGoogleLoading) := by
  refine ⟨?_, ?_, rfl, rfl⟩
  · cases hv : validateFormOk st.formData <;> cases hm : st.authMode <;> cases outcome <;>
      simp [handleSubmitSteps, hv, hm, LoginStep.writesGoogleLoadingFlag]
  · cases outcome <;> simp [handleGoogleSignInSteps, LoginStep.writesLoadingFlag]
